import Mathlib

/-!
Verification of the request-handling core of the koa-style middleware
framework in `src/lib/application.js`: middleware composition (onion model),
middleware registration (`use`), context creation (`createContext`),
request dispatch (`handleRequest`), the default error reporter
(`Application#onerror`), and the response finalizer (`respond`).

The JavaScript is shallowly embedded: mutation of per-request objects is
explicit state passing, promise settlement is `Except`, and the prototype
heap of `Object.create` is a concrete store of objects with proto links.
-/

set_option autoImplicit false

namespace Koa

/-! ## Middleware composer (koa-compose)

`callback` in `src/lib/application.js` composes `this.middleware` with the
external `koa-compose` package, whose source is not in this repository.
The composer is modelled from the spec (section 4.1): `dispatch i` invokes
handler `h i` with continuation `() => dispatch (i+1)`; at `i = n` with the
trailing `next` absent the pipeline completes immediately.

A handler is observed through its side-effect trace: it emits its
pre-`next` effects, awaits the continuation exactly zero or one times
(`callsNext`), then emits its post-`next` effects.  The suffix list of
handlers plays the role of the cursor `i`, so the re-entrancy guard
(which only fires when a handler calls `next` twice) is vacuous here. -/

structure MW (E : Type) where
  pre : List E
  callsNext : Bool
  post : List E

/-- Modelled from the spec: `koa-compose`'s `dispatch`, specialised to
handlers that emit a trace of side effects around at most one `next` call. -/
def dispatch {E : Type} : List (MW E) → List E
  | [] => []
  | h :: rest => h.pre ++ (if h.callsNext then dispatch rest else []) ++ h.post

theorem dispatch_all_next {E : Type} (hs : List (MW E))
    (hall : ∀ m ∈ hs, m.callsNext = true) :
    dispatch hs = (hs.map MW.pre).flatten ++ (hs.reverse.map MW.post).flatten := by
  induction hs with
  | nil => simp [dispatch]
  | cons h t ih =>
    have hh : h.callsNext = true := hall h (by simp)
    have ht : ∀ m ∈ t, m.callsNext = true := fun m hm => hall m (by simp [hm])
    simp [dispatch, hh, ih ht]

theorem dispatch_short_circuit {E : Type} (as : List (MW E)) (h : MW E)
    (bs : List (MW E)) (hall : ∀ m ∈ as, m.callsNext = true)
    (hh : h.callsNext = false) :
    dispatch (as ++ h :: bs) =
      (as.map MW.pre).flatten ++ (h.pre ++ h.post ++ (as.reverse.map MW.post).flatten) := by
  induction as with
  | nil => simp [dispatch, hh]
  | cons a t ih =>
    have ha : a.callsNext = true := hall a (by simp)
    have ht : ∀ m ∈ t, m.callsNext = true := fun m hm => hall m (by simp [hm])
    simp [dispatch, ha, ih ht]

/-- Claim C1: composing an ordered list of middleware handlers yields the
onion discipline: when every handler awaits its continuation exactly once,
pre-`next` side effects occur in registration order `0..n-1` and post-`next`
side effects in reverse order `n-1..0`; and a handler that never calls
`next` prevents all later handlers from running (their effects are absent
from the trace) while earlier handlers still unwind normally. -/
theorem composed_pipeline_onion_discipline {E : Type} :
    (∀ hs : List (MW E), (∀ m ∈ hs, m.callsNext = true) →
      dispatch hs = (hs.map MW.pre).flatten ++ (hs.reverse.map MW.post).flatten) ∧
    (∀ (as : List (MW E)) (h : MW E) (bs : List (MW E)),
      (∀ m ∈ as, m.callsNext = true) → h.callsNext = false →
      dispatch (as ++ h :: bs) =
        (as.map MW.pre).flatten ++ (h.pre ++ h.post ++ (as.reverse.map MW.post).flatten)) :=
  ⟨dispatch_all_next, dispatch_short_circuit⟩

/-- Witness for C1 at three concrete handlers: full traversal gives
`pre 0, pre 1, pre 2, post 2, post 1, post 0`, and a middle handler that
skips `next` cuts off the third handler entirely. -/
theorem composed_pipeline_onion_discipline_witness :
    dispatch [⟨[0], true, [10]⟩, ⟨[1], true, [11]⟩, (⟨[2], true, [12]⟩ : MW Nat)]
      = [0, 1, 2, 12, 11, 10] ∧
    dispatch [⟨[0], true, [10]⟩, ⟨[1], false, [11]⟩, (⟨[2], true, [12]⟩ : MW Nat)]
      = [0, 1, 11, 10] := by
  have h1 := (@composed_pipeline_onion_discipline Nat).1
    [⟨[0], true, [10]⟩, ⟨[1], true, [11]⟩, ⟨[2], true, [12]⟩] (by decide)
  have h2 := (@composed_pipeline_onion_discipline Nat).2
    [⟨[0], true, [10]⟩] ⟨[1], false, [11]⟩ [⟨[2], true, [12]⟩] (by decide) (by decide)
  exact ⟨by simpa using h1, by simpa using h2⟩

/-! ## Middleware registration (`use`)

`use (fn)` from `src/lib/application.js`: a non-function argument throws a
`TypeError`; a legacy generator function is first run through `koa-convert`;
the (possibly converted) handler is pushed onto `this.middleware` and the
application itself is returned for chaining.  A handler value is represented
by its kind plus an identity tag, which is all `use` inspects. -/

inductive MWVal where
  | asyncFn (id : Nat)
  | genFn (id : Nat)
  | converted (id : Nat)
  | notFn (id : Nat)
deriving DecidableEq

/-- `typeof fn === 'function'`: every handler kind except `notFn`. -/
def isFunction : MWVal → Bool
  | .notFn _ => false
  | _ => true

/-- The `is-generator-function` check. -/
def isGeneratorFunction : MWVal → Bool
  | .genFn _ => true
  | _ => false

/-- `koa-convert`: wraps a generator function, leaves anything else alone. -/
def convert : MWVal → MWVal
  | .genFn i => .converted i
  | v => v

/-- The application state `use` touches: the middleware list. -/
structure AppState where
  middleware : List MWVal
deriving DecidableEq

/-- `Application#use` from `src/lib/application.js`: throw on non-functions,
convert generator functions, push, return the application. -/
def use (app : AppState) (fn : MWVal) : Except String AppState :=
  if isFunction fn = false then .error "middleware must be a function!"
  else
    let fn2 := if isGeneratorFunction fn then convert fn else fn
    .ok { middleware := app.middleware ++ [fn2] }

/-- Claim C5 counterexample: for a legacy generator function, `use` appends
`convert fn` (the `koa-convert` wrapper), not `fn` itself, so the claim that
every invocable `fn` is itself appended fails at `MWVal.genFn 0`. -/
theorem use_appends_fn_counterexample :
    use ⟨[]⟩ (MWVal.genFn 0) = .ok ⟨[MWVal.converted 0]⟩ ∧
    MWVal.converted 0 ≠ MWVal.genFn 0 := ⟨rfl, by decide⟩

/-- Claim C5 (amended): `use fn` throws a `TypeError` exactly when `fn` is
not invocable; for an invocable `fn` it appends `fn` itself — or the
`koa-convert` wrapper of `fn` when `fn` is a legacy generator function — to
the end of the middleware list (append-only: the existing list survives as
a prefix) and returns the application for chaining. -/
theorem use_registration (app : AppState) (fn : MWVal) :
    (isFunction fn = false → use app fn = .error "middleware must be a function!") ∧
    (isFunction fn = true →
      use app fn =
        .ok ⟨app.middleware ++ [if isGeneratorFunction fn then convert fn else fn]⟩ ∧
      (isGeneratorFunction fn = false → use app fn = .ok ⟨app.middleware ++ [fn]⟩)) := by
  refine ⟨fun hnf => ?_, fun hf => ⟨?_, fun hng => ?_⟩⟩
  · simp [use, hnf]
  · simp [use, hf]
  · simp [use, hf, hng]

/-- Witness for C5 (amended): a non-function is rejected, a plain function
is appended as-is, and a generator function is appended converted. -/
theorem use_registration_witness :
    use ⟨[MWVal.asyncFn 0]⟩ (MWVal.notFn 5) = .error "middleware must be a function!" ∧
    use ⟨[MWVal.asyncFn 0]⟩ (MWVal.asyncFn 1) = .ok ⟨[MWVal.asyncFn 0, MWVal.asyncFn 1]⟩ ∧
    use ⟨[MWVal.asyncFn 0]⟩ (MWVal.genFn 2) = .ok ⟨[MWVal.asyncFn 0, MWVal.converted 2]⟩ := by
  refine ⟨(use_registration ⟨[MWVal.asyncFn 0]⟩ (MWVal.notFn 5)).1 (by decide), ?_, ?_⟩
  · have h := ((use_registration ⟨[MWVal.asyncFn 0]⟩ (MWVal.asyncFn 1)).2 (by decide)).2 (by decide)
    simpa using h
  · have h := ((use_registration ⟨[MWVal.asyncFn 0]⟩ (MWVal.genFn 2)).2 (by decide)).1
    simpa using h

/-! ## Default error reporter (`Application#onerror`)

`onerror (err)` from `src/lib/application.js`.  An error value is
represented by the only facets `onerror` inspects: whether it duck-types as
a native `Error`, its `status` (an integer when it is one), its `expose`
flag, its `stack` (absent or possibly empty, both falsy in JS), and its
`toString()` text.  The `TypeError` message built with `util.format` is
abstracted to the bare `threw` outcome. -/

structure ErrVal where
  isNativeError : Bool
  status : Option Int
  expose : Bool
  stack : Option String
  str : String
deriving DecidableEq

/-- Outcome of the reporter: it threw a `TypeError`, returned without
output, or wrote `out` to the error-diagnostics stream. -/
inductive OnerrorResult where
  | threw
  | quiet
  | wrote (out : String)
deriving DecidableEq

/-- `msg.replace(/^/gm, '  ')`: two spaces at the start of every line,
i.e. at the start of the string and after every newline. -/
def indentLines (s : String) : String :=
  "  " ++ String.join (s.toList.map (fun c =>
    if c = '\n' then "\n  " else String.singleton c))

/-- `err.stack || err.toString()` (an absent or empty stack is falsy). -/
def errMsg (err : ErrVal) : String :=
  match err.stack with
  | some s => if s = "" then err.str else s
  | none => err.str

/-- `Application#onerror` from `src/lib/application.js`: throw on
non-errors, stay quiet on `status === 404` / `expose` / a silent
application, otherwise print the indented stack trace wrapped in blank
lines (`console.error` of `\n` + indented message + `\n`). -/
def onerror (silent : Bool) (err : ErrVal) : OnerrorResult :=
  if err.isNativeError = false then .threw
  else if err.status = some 404 ∨ err.expose = true then .quiet
  else if silent = true then .quiet
  else .wrote ("\n" ++ indentLines (errMsg err) ++ "\n")

/-- Claim C6: the Error Reporter throws a new `TypeError` exactly on values
that are not recognized `Error` objects; for recognized errors it never
throws, produces no diagnostic output when `status` is 404 or `expose` is
set (regardless of the silent flag) or when the application is silent, and
otherwise writes the stack trace or string representation with every line
indented to the error-diagnostics stream. -/
theorem onerror_reporter (silent : Bool) (err : ErrVal) :
    (err.isNativeError = false → onerror silent err = OnerrorResult.threw) ∧
    (err.isNativeError = true →
      onerror silent err ≠ OnerrorResult.threw ∧
      ((err.status = some 404 ∨ err.expose = true) →
        onerror silent err = OnerrorResult.quiet) ∧
      (silent = true → onerror silent err = OnerrorResult.quiet) ∧
      (¬(err.status = some 404 ∨ err.expose = true) → silent = false →
        onerror silent err =
          OnerrorResult.wrote ("\n" ++ indentLines (errMsg err) ++ "\n"))) := by
  unfold onerror
  rcases err with ⟨ne, st, ex, sk, s⟩
  cases ne <;> cases ex <;> cases silent <;>
    by_cases h : st = some 404 <;> simp [h]

/-- Witness for C6: a non-error throws; a 404 error is quiet even when not
silent; a silenced application is quiet; an ordinary error is reported with
each line of its stack indented by two spaces. -/
theorem onerror_reporter_witness :
    onerror false ⟨false, Option.none, false, Option.none, "boom"⟩ = OnerrorResult.threw ∧
    onerror false ⟨true, some 404, false, Option.none, "x"⟩ = OnerrorResult.quiet ∧
    onerror true ⟨true, Option.none, false, some "Error: y", "y"⟩ = OnerrorResult.quiet ∧
    onerror false ⟨true, some 500, false, some "Error: z\n    at f", "z"⟩ =
      OnerrorResult.wrote "\n  Error: z\n      at f\n" := by
  refine ⟨?_, ?_, ?_, ?_⟩
  · exact (onerror_reporter false ⟨false, Option.none, false, Option.none, "boom"⟩).1 rfl
  · exact ((onerror_reporter false ⟨true, some 404, false, Option.none, "x"⟩).2 rfl).2.1
      (by decide)
  · exact ((onerror_reporter true ⟨true, Option.none, false, some "Error: y", "y"⟩).2
      rfl).2.2.1 rfl
  · have h := ((onerror_reporter false
      ⟨true, some 500, false, some "Error: z\n    at f", "z"⟩).2 rfl).2.2.2
      (by decide) rfl
    rw [h]; rfl

/-! ## Response finalizer (`respond`)

The module-level `respond (ctx)` helper from `src/lib/application.js`.
`ctx.body` is one of JavaScript's body variants; structured values (the
"anything else" arm) are a small JSON universe with `JSON.stringify`
modelled including its quote/backslash escaping.  The context fields are
exactly the facets `respond` reads or writes; header state reached through
the response view (`ctx.length`, `ctx.type`, `ctx.response.has`,
`ctx.response.remove`) is carried as explicit header fields. -/

inductive JsonVal where
  | num (n : Int)
  | jstr (s : String)
  | jbool (b : Bool)
  | jnull
  | arr (xs : List JsonVal)
  | obj (kvs : List (String × JsonVal))

/-- `JSON.stringify` escaping for one character (quote and backslash). -/
def escapeJsonChar (c : Char) : String :=
  if c = '\\' then "\\\\"
  else if c = '"' then "\\\""
  else String.singleton c

def escapeJson (s : String) : String :=
  String.join (s.toList.map escapeJsonChar)

mutual

/-- `JSON.stringify` on the modelled JSON universe. -/
def stringify : JsonVal → String
  | .num n => toString n
  | .jstr s => "\"" ++ escapeJson s ++ "\""
  | .jbool b => if b then "true" else "false"
  | .jnull => "null"
  | .arr xs => "[" ++ stringifyElems xs ++ "]"
  | .obj kvs => "\x7b" ++ stringifyMembers kvs ++ "\x7d"

def stringifyElems : List JsonVal → String
  | [] => ""
  | [x] => stringify x
  | x :: y :: rest => stringify x ++ "," ++ stringifyElems (y :: rest)

def stringifyMembers : List (String × JsonVal) → String
  | [] => ""
  | [(k, v)] => "\"" ++ escapeJson k ++ "\":" ++ stringify v
  | (k, v) :: m :: rest =>
      "\"" ++ escapeJson k ++ "\":" ++ stringify v ++ "," ++ stringifyMembers (m :: rest)

end

/-- A JavaScript value as far as the `false === ctx.respond` strict-identity
check can distinguish it. -/
inductive JsLite where
  | undef
  | jsNull
  | bool (b : Bool)
  | num (n : Int)
  | str (s : String)
deriving DecidableEq

/-- The body variants of section 4.4: `null` covers both `undefined` and
`null` (the source's loose `null == body` check), the rest are the buffer /
string / stream / structured-value arms. -/
inductive BodyVal where
  | null
  | buffer (bytes : List Nat)
  | str (s : String)
  | stream (id : Nat)
  | json (j : JsonVal)

/-- The context facets `respond` reads and writes. -/
structure Ctx where
  respond : JsLite
  writable : Bool
  status : Nat
  body : BodyVal
  method : String
  headersSent : Bool
  contentLength : Option Nat
  contentType : Option String
  transferEncoding : Option String
  responseLength : Option Nat
  explicitNullBody : Bool
  httpVersionMajor : Nat
  message : String

/-- What `respond` did to the transport response. -/
inductive WriteAction where
  | noWrite
  | endNoPayload
  | endString (s : String)
  | endBuffer (bytes : List Nat)
  | pipeStream (id : Nat)

/-- `statuses.empty` from the `statuses` package: the bodyless statuses
204, 205 and 304. -/
def statusesEmpty (code : Nat) : Bool :=
  code == 204 || code == 205 || code == 304

/-- The tail of `respond` after the `false === ctx.respond` opt-out check:
writability check, bodyless statuses, HEAD, null body with its synthesized
fallback, then the buffer / string / stream / JSON arms. -/
def respondAfterOptOut (ctx : Ctx) : Ctx × WriteAction :=
  if ctx.writable = false then (ctx, .noWrite)
  else
    let code := ctx.status
    if statusesEmpty code then
      ({ ctx with body := .null }, .endNoPayload)
    else if ctx.method = "HEAD" then
      if ctx.headersSent = false ∧ ctx.contentLength = Option.none then
        (match ctx.responseLength with
          | some l => ({ ctx with contentLength := some l }, .endNoPayload)
          | none => (ctx, .endNoPayload))
      else (ctx, .endNoPayload)
    else
      match ctx.body with
      | .null =>
        if ctx.explicitNullBody then
          ({ ctx with contentType := Option.none, transferEncoding := Option.none },
            .endNoPayload)
        else
          let payload :=
            if 2 ≤ ctx.httpVersionMajor then toString code
            else if ctx.message ≠ "" then ctx.message else toString code
          if ctx.headersSent = false then
            ({ ctx with
                contentType := some "text",
                contentLength := some payload.utf8ByteSize }, .endString payload)
          else (ctx, .endString payload)
      | .buffer bs => (ctx, .endBuffer bs)
      | .str s => (ctx, .endString s)
      | .stream i => (ctx, .pipeStream i)
      | .json j =>
        let text := stringify j
        if ctx.headersSent = false then
          ({ ctx with contentLength := some text.utf8ByteSize }, .endString text)
        else (ctx, .endString text)

/-- The `respond` helper from `src/lib/application.js`. -/
def respond (ctx : Ctx) : Ctx × WriteAction :=
  if ctx.respond = JsLite.bool false then (ctx, .noWrite)
  else respondAfterOptOut ctx

/-- Claim C7: when the status is in the no-body-allowed class (204, 205,
304) and the pipeline did not opt out of response writing (so the finalizer
reaches this arm of its decision tree: `ctx.respond` is not literally
`false` and the transport response is writable), `respond` sets the
context's body to `null` and ends the response with no payload, whatever
the body was. -/
theorem respond_empty_status (ctx : Ctx)
    (hresp : ctx.respond ≠ JsLite.bool false) (hw : ctx.writable = true)
    (hempty : statusesEmpty ctx.status = true) :
    (respond ctx).1.body = BodyVal.null ∧
    (respond ctx).2 = WriteAction.endNoPayload := by
  simp [respond, hresp, respondAfterOptOut, hw, hempty]

/-- Witness for C7: status 204 with a non-null string body is stripped to a
null body and an empty payload. -/
theorem respond_empty_status_witness :
    (respond ⟨.undef, true, 204, .str "hi", "GET", false, Option.none, Option.none,
      Option.none, Option.none, false, 1, ""⟩).1.body = BodyVal.null ∧
    (respond ⟨.undef, true, 204, .str "hi", "GET", false, Option.none, Option.none,
      Option.none, Option.none, false, 1, ""⟩).2 = WriteAction.endNoPayload :=
  respond_empty_status _ (by decide) rfl rfl

/-- Claim C8: for a non-HEAD request with a status outside the bodyless
class (and no opt-out), a body that is neither null, a buffer, a string nor
a stream is written as exactly its JSON text serialization, with
content-length set to that text's byte length when headers are unsent (and
headers untouched when already sent); in particular `{a:1}` serializes to
the seven-byte text `{"a":1}`. -/
theorem respond_json_body (ctx : Ctx) (j : JsonVal)
    (hresp : ctx.respond ≠ JsLite.bool false) (hw : ctx.writable = true)
    (hempty : statusesEmpty ctx.status = false) (hmethod : ctx.method ≠ "HEAD")
    (hbody : ctx.body = BodyVal.json j) :
    (respond ctx).2 = WriteAction.endString (stringify j) ∧
    (ctx.headersSent = false →
      (respond ctx).1.contentLength = some (stringify j).utf8ByteSize) ∧
    (ctx.headersSent = true → (respond ctx).1 = ctx) ∧
    stringify (JsonVal.obj [("a", JsonVal.num 1)]) = "\x7b\"a\":1\x7d" ∧
    (stringify (JsonVal.obj [("a", JsonVal.num 1)])).utf8ByteSize = 7 := by
  refine ⟨?_, fun hs => ?_, fun hs => ?_, rfl, rfl⟩
  · cases hsent : ctx.headersSent <;>
      simp [respond, hresp, respondAfterOptOut, hw, hempty, hmethod, hbody, hsent]
  · simp [respond, hresp, respondAfterOptOut, hw, hempty, hmethod, hbody, hs]
  · simp [respond, hresp, respondAfterOptOut, hw, hempty, hmethod, hbody, hs]

/-- Witness for C8: body `{a:1}`, status 200, headers unsent: the literal
text and a content-length of 7. -/
theorem respond_json_body_witness :
    (respond ⟨.undef, true, 200, .json (JsonVal.obj [("a", JsonVal.num 1)]), "GET",
      false, Option.none, Option.none, Option.none, Option.none, false, 1, "OK"⟩).2 =
      WriteAction.endString "\x7b\"a\":1\x7d" ∧
    (respond ⟨.undef, true, 200, .json (JsonVal.obj [("a", JsonVal.num 1)]), "GET",
      false, Option.none, Option.none, Option.none, Option.none, false, 1, "OK"⟩).1.contentLength =
      some 7 := by
  have h := respond_json_body
    ⟨.undef, true, 200, .json (JsonVal.obj [("a", JsonVal.num 1)]), "GET",
      false, Option.none, Option.none, Option.none, Option.none, false, 1, "OK"⟩
    (JsonVal.obj [("a", JsonVal.num 1)])
    (by decide) rfl rfl (by decide) rfl
  refine ⟨?_, ?_⟩
  · rw [h.1, h.2.2.2.1]
  · rw [h.2.1 rfl, h.2.2.2.2]

/-- Claim C10: the finalizer's opt-out check is strict identity with the
boolean `false`: `respond` returns with the context and transport untouched
exactly when `ctx.respond` is the value `false`; for every other value
(absent, `null`, `0`, the empty string, or any truthy value) execution
proceeds to the writability check and the rest of the decision tree. -/
theorem respond_bypass_strict_false (ctx : Ctx) :
    (ctx.respond = JsLite.bool false → respond ctx = (ctx, WriteAction.noWrite)) ∧
    (ctx.respond ≠ JsLite.bool false → respond ctx = respondAfterOptOut ctx) := by
  constructor <;> intro h <;> simp [respond, h]

/-- Witness for C10: with `ctx.respond === false` nothing is written even
on a writable response; with `ctx.respond = 0` (falsy but not `false`) the
finalizer proceeds and writes the string body. -/
theorem respond_bypass_strict_false_witness :
    respond ⟨.bool false, true, 200, .str "hi", "GET", false, Option.none, Option.none,
      Option.none, Option.none, false, 1, "OK"⟩ =
      (⟨.bool false, true, 200, .str "hi", "GET", false, Option.none, Option.none,
        Option.none, Option.none, false, 1, "OK"⟩, WriteAction.noWrite) ∧
    respond ⟨.num 0, true, 200, .str "hi", "GET", false, Option.none, Option.none,
      Option.none, Option.none, false, 1, "OK"⟩ =
      respondAfterOptOut ⟨.num 0, true, 200, .str "hi", "GET", false, Option.none,
        Option.none, Option.none, Option.none, false, 1, "OK"⟩ ∧
    (respondAfterOptOut ⟨.num 0, true, 200, .str "hi", "GET", false, Option.none,
      Option.none, Option.none, Option.none, false, 1, "OK"⟩).2 =
      WriteAction.endString "hi" := by
  refine ⟨(respond_bypass_strict_false _).1 rfl, (respond_bypass_strict_false _).2 (by decide), rfl⟩

/-! ## Request dispatcher (`handleRequest`)

`Application#handleRequest (ctx, fnMiddleware)` from
`src/lib/application.js`: set `res.statusCode = 404`, register the
`onFinished` transport-close callback, then
`fnMiddleware(ctx).then(handleResponse).catch(onerror)`.

The per-request state the dispatcher touches is the transport response's
status code plus whatever the middleware mutate, abstracted as a key/value
bag.  Pipeline settlement is `Except`: `ok` with the final state or
`error` with the failure value.  The settlement record registers which of
the two continuations of the `then`/`catch` chain ran and with what
argument; an `Option` holds each because the settlement path runs each at
most once.  The independent `onFinished` transport-close path is outside
this settlement chain and is not modelled. -/

structure DCtx where
  resStatusCode : Nat
  state : List (String × String)

/-- `res.statusCode = n` on the context's transport response. -/
def setStatusCode (c : DCtx) (n : Nat) : DCtx :=
  { c with resStatusCode := n }

/-- Which continuation of `fnMiddleware(ctx).then(handleResponse)
.catch(onerror)` ran, and with what: `respondedWith` holds the context
passed to the Response Finalizer, `reportedError` the error passed to
`ctx.onerror`. -/
structure Settlement (ε : Type) where
  respondedWith : Option DCtx
  reportedError : Option ε

/-- `Application#handleRequest` from `src/lib/application.js`, restricted
to the pipeline-settlement path. -/
def handleRequest {ε : Type} (fnMiddleware : DCtx → Except ε DCtx)
    (ctx : DCtx) : Settlement ε :=
  let ctx1 := setStatusCode ctx 404
  match fnMiddleware ctx1 with
  | .ok c => ⟨some c, Option.none⟩
  | .error e => ⟨Option.none, some e⟩

/-- Claim C2: on the pipeline-settlement path, a successful settlement
invokes the Response Finalizer with the settled context and never the
error reporter; a rejection invokes `ctx.onerror` with the error and never
the finalizer; each runs at most once (the `Option` holds at most one
invocation) and the two outcomes are mutually exclusive. -/
theorem handleRequest_settlement {ε : Type} (fnMiddleware : DCtx → Except ε DCtx)
    (ctx : DCtx) :
    (∀ c, fnMiddleware (setStatusCode ctx 404) = .ok c →
      handleRequest fnMiddleware ctx = ⟨some c, Option.none⟩) ∧
    (∀ e, fnMiddleware (setStatusCode ctx 404) = .error e →
      handleRequest fnMiddleware ctx = ⟨Option.none, some e⟩) ∧
    ¬((handleRequest fnMiddleware ctx).respondedWith.isSome ∧
      (handleRequest fnMiddleware ctx).reportedError.isSome) := by
  refine ⟨fun c hc => ?_, fun e he => ?_, ?_⟩
  · simp [handleRequest, hc]
  · simp [handleRequest, he]
  · cases hfn : fnMiddleware (setStatusCode ctx 404) <;>
      simp [handleRequest, hfn]

/-- Witness for C2: a succeeding pipeline reaches only the finalizer, a
rejecting pipeline reaches only the error reporter. -/
theorem handleRequest_settlement_witness :
    @handleRequest Nat (fun c => .ok c) ⟨0, []⟩ =
      ⟨some ⟨404, []⟩, Option.none⟩ ∧
    @handleRequest Nat (fun _ => .error 7) ⟨0, []⟩ =
      ⟨Option.none, some 7⟩ := by
  refine ⟨?_, ?_⟩
  · exact (@handleRequest_settlement Nat (fun c => .ok c) ⟨0, []⟩).1 ⟨404, []⟩ rfl
  · exact (@handleRequest_settlement Nat (fun _ => .error 7) ⟨0, []⟩).2.1 7 rfl

/-- Claim C9: the dispatcher stamps 404 onto the transport response before
the pipeline runs — the context handed to the middleware carries status
code 404 — so any pipeline that never assigns a status (it preserves
`resStatusCode` whenever it settles successfully) hands the finalizer a
context whose status code is still 404. -/
theorem handleRequest_default_404 {ε : Type} (fnMiddleware : DCtx → Except ε DCtx)
    (ctx : DCtx)
    (hpreserve : ∀ c c', fnMiddleware c = .ok c' → c'.resStatusCode = c.resStatusCode) :
    (setStatusCode ctx 404).resStatusCode = 404 ∧
    (∀ c', (handleRequest fnMiddleware ctx).respondedWith = some c' →
      c'.resStatusCode = 404) := by
  refine ⟨rfl, fun c' hc' => ?_⟩
  cases hfn : fnMiddleware (setStatusCode ctx 404) with
  | ok c =>
    simp [handleRequest, hfn] at hc'
    subst hc'
    exact hpreserve _ _ hfn
  | error e => simp [handleRequest, hfn] at hc'

/-- Witness for C9: a pipeline that only touches the state bag yields a
404 response even though it set no status, starting from a response whose
status code was 0. -/
theorem handleRequest_default_404_witness :
    (setStatusCode ⟨0, []⟩ 404).resStatusCode = 404 ∧
    ∀ c', (@handleRequest Nat
        (fun c => .ok { c with state := [("seen", "yes")] }) ⟨0, []⟩).respondedWith =
        some c' → c'.resStatusCode = 404 := by
  have h := @handleRequest_default_404 Nat
    (fun c => .ok { c with state := [("seen", "yes")] }) ⟨0, []⟩
    (fun c c' hcc => by
      simp only [Except.ok.injEq] at hcc
      rw [← hcc])
  exact h

/-! ## Context factory (`createContext`)

`Application#createContext (req, res)` from `src/lib/application.js`
manipulates JavaScript objects through `Object.create` and own-property
assignment, so here the object graph is explicit: a heap is a list of
objects, an object id is its index, and each object carries its prototype
link and its own properties.  `Object.create (p)` allocates a fresh object
with prototype `p` and no own properties; property assignment writes an
own property; property lookup (`getProp`, with fuel for the walk) searches
own properties and then delegates along the prototype chain. -/

inductive JVal where
  | undef
  | ref (id : Nat)
  | str (s : String)
  | raw (tag : String) (conn : Nat)
deriving DecidableEq

structure JObj where
  proto : Option Nat
  fields : List (String × JVal)
deriving DecidableEq

structure Heap where
  objs : List JObj
deriving DecidableEq

/-- `Object.create (proto)`: a fresh object with no own properties. -/
def Heap.alloc (h : Heap) (proto : Option Nat) : Nat × Heap :=
  (h.objs.length, ⟨h.objs ++ [⟨proto, []⟩]⟩)

/-- Write an own property into a property list. -/
def putField : List (String × JVal) → String → JVal → List (String × JVal)
  | [], k, v => [(k, v)]
  | (k1, v1) :: rest, k, v =>
      if k1 = k then (k, v) :: rest else (k1, v1) :: putField rest k v

/-- Look up an own property in a property list. -/
def getField : List (String × JVal) → String → Option JVal
  | [], _ => Option.none
  | (k1, v1) :: rest, k => if k1 = k then some v1 else getField rest k

/-- `obj.k = v`: own-property assignment on object `id`. -/
def Heap.setF (h : Heap) (id : Nat) (k : String) (v : JVal) : Heap :=
  match h.objs[id]? with
  | some o => ⟨h.objs.set id ⟨o.proto, putField o.fields k v⟩⟩
  | none => h

/-- The own property `k` of object `id`, ignoring the prototype chain. -/
def Heap.getOwn (h : Heap) (id : Nat) (k : String) : Option JVal :=
  match h.objs[id]? with
  | some o => getField o.fields k
  | none => Option.none

/-- The prototype link of object `id`. -/
def Heap.protoOf (h : Heap) (id : Nat) : Option Nat :=
  match h.objs[id]? with
  | some o => o.proto
  | none => Option.none

/-- JavaScript property lookup: own properties first, then delegation
along the prototype chain (`fuel` bounds the walk). -/
def Heap.getProp (h : Heap) : Nat → Nat → String → Option JVal
  | 0, _, _ => Option.none
  | fuel+1, id, k =>
    match h.objs[id]? with
    | none => Option.none
    | some o =>
      match getField o.fields k with
      | some v => some v
      | none =>
        match o.proto with
        | some p => h.getProp fuel p k
        | none => Option.none

/-- The prototype chain of object `id`, truncated at `fuel` links. -/
def protoChain (h : Heap) : Nat → Nat → List Nat
  | 0, _ => []
  | fuel+1, id =>
    id :: (match h.protoOf id with
      | some p => protoChain h fuel p
      | none => [])

/-- `Application#createContext` from `src/lib/application.js`, line by
line.  `ctxProto`, `reqProto`, `resProto` are `this.context`,
`this.request`, `this.response`; `app`, `req`, `res` are the values
stamped as back-references; `reqUrl` is the raw request's `req.url` read
at the `originalUrl` assignment.  A total function: allocation and
assignment cannot fail, matching the contract that context creation never
fails or suspends. -/
def createContext (h : Heap) (ctxProto reqProto resProto : Nat)
    (app req res : JVal) (reqUrl : String) : Nat × Heap :=
  let a1 := h.alloc (some ctxProto)
  let contextId := a1.1
  let a2 := a1.2.alloc (some reqProto)
  let requestId := a2.1
  let h2 := a2.2.setF contextId "request" (.ref requestId)
  let a3 := h2.alloc (some resProto)
  let responseId := a3.1
  let h3 := a3.2.setF contextId "response" (.ref responseId)
  let h4 := ((h3.setF responseId "app" app).setF requestId "app" app).setF
    contextId "app" app
  let h5 := ((h4.setF responseId "req" req).setF requestId "req" req).setF
    contextId "req" req
  let h6 := ((h5.setF responseId "res" res).setF requestId "res" res).setF
    contextId "res" res
  let h7 := (h6.setF responseId "ctx" (.ref contextId)).setF
    requestId "ctx" (.ref contextId)
  let h8 := h7.setF requestId "response" (.ref responseId)
  let h9 := h8.setF responseId "request" (.ref requestId)
  let h10 := (h9.setF requestId "originalUrl" (.str reqUrl)).setF
    contextId "originalUrl" (.str reqUrl)
  let a4 := h10.alloc Option.none
  let stateId := a4.1
  let h11 := a4.2.setF contextId "state" (.ref stateId)
  (contextId, h11)

/-- The heap after the `Application` constructor: objects 0, 1, 2 are the
module-level context/request/response prototypes and objects 3, 4, 5 are
the per-application templates `this.context = Object.create(context)`,
`this.request = Object.create(request)`,
`this.response = Object.create(response)`. -/
def appHeap : Heap :=
  ⟨[⟨Option.none, []⟩, ⟨Option.none, []⟩, ⟨Option.none, []⟩,
    ⟨some 0, []⟩, ⟨some 1, []⟩, ⟨some 2, []⟩]⟩

/-- Claim C3: on the application's heap, `createContext` returns a context
(object 6) whose `request` and `response` are fresh objects (7 and 8)
deriving from the application templates (3, 4, 5); `request.ctx` and
`response.ctx` point back to the context, `request.response` and
`response.request` to each other; `app`, `req` and `res` are stamped on
all three; `originalUrl` on the context is the raw request's url as read
at creation (before any middleware runs); and `state` is a fresh empty
object.  The factory itself is a total function: it cannot fail or
suspend. -/
theorem createContext_cross_links (app req res : JVal) (url : String) :
    (createContext appHeap 3 4 5 app req res url).1 = 6 ∧
    ((createContext appHeap 3 4 5 app req res url).2.protoOf 6 = some 3 ∧
      (createContext appHeap 3 4 5 app req res url).2.protoOf 7 = some 4 ∧
      (createContext appHeap 3 4 5 app req res url).2.protoOf 8 = some 5) ∧
    ((createContext appHeap 3 4 5 app req res url).2.getOwn 6 "request" =
        some (.ref 7) ∧
      (createContext appHeap 3 4 5 app req res url).2.getOwn 6 "response" =
        some (.ref 8)) ∧
    ((createContext appHeap 3 4 5 app req res url).2.getOwn 7 "ctx" = some (.ref 6) ∧
      (createContext appHeap 3 4 5 app req res url).2.getOwn 8 "ctx" = some (.ref 6) ∧
      (createContext appHeap 3 4 5 app req res url).2.getOwn 7 "response" =
        some (.ref 8) ∧
      (createContext appHeap 3 4 5 app req res url).2.getOwn 8 "request" =
        some (.ref 7)) ∧
    ((createContext appHeap 3 4 5 app req res url).2.getOwn 6 "app" = some app ∧
      (createContext appHeap 3 4 5 app req res url).2.getOwn 7 "app" = some app ∧
      (createContext appHeap 3 4 5 app req res url).2.getOwn 8 "app" = some app) ∧
    ((createContext appHeap 3 4 5 app req res url).2.getOwn 6 "req" = some req ∧
      (createContext appHeap 3 4 5 app req res url).2.getOwn 7 "req" = some req ∧
      (createContext appHeap 3 4 5 app req res url).2.getOwn 8 "req" = some req) ∧
    ((createContext appHeap 3 4 5 app req res url).2.getOwn 6 "res" = some res ∧
      (createContext appHeap 3 4 5 app req res url).2.getOwn 7 "res" = some res ∧
      (createContext appHeap 3 4 5 app req res url).2.getOwn 8 "res" = some res) ∧
    ((createContext appHeap 3 4 5 app req res url).2.getOwn 6 "originalUrl" =
        some (.str url) ∧
      (createContext appHeap 3 4 5 app req res url).2.getOwn 7 "originalUrl" =
        some (.str url)) ∧
    ((createContext appHeap 3 4 5 app req res url).2.getOwn 6 "state" =
        some (.ref 9) ∧
      (createContext appHeap 3 4 5 app req res url).2.objs[9]? =
        some ⟨Option.none, []⟩) := by
  refine ⟨?_, ⟨?_, ?_, ?_⟩, ⟨?_, ?_⟩, ⟨?_, ?_, ?_, ?_⟩, ⟨?_, ?_, ?_⟩,
      ⟨?_, ?_, ?_⟩, ⟨?_, ?_, ?_⟩, ⟨?_, ?_⟩, ⟨?_, ?_⟩⟩ <;>
    simp [createContext, Heap.alloc, Heap.setF, Heap.getOwn, Heap.protoOf,
      putField, getField, appHeap]

/-! ### Isolation of two contexts (C4)

Two successive `createContext` calls on the same application heap build
disjoint objects — 6/7/8/9 for the first connection and 10/11/12/13 for
the second — whose prototype chains meet only in the shared templates
3/4/5 and module prototypes 0/1/2.  Writing an own property of any object
of one context cannot change any property lookup (own or delegated)
rooted at an object of the other context. -/

theorem objs_setF_ne (h : Heap) (id j : Nat) (k : String) (v : JVal)
    (hne : id ≠ j) : (h.setF id k v).objs[j]? = h.objs[j]? := by
  unfold Heap.setF
  cases ho : h.objs[id]? with
  | none => rfl
  | some o => exact List.getElem?_set_ne hne

theorem getProp_setF_frame (h : Heap) (id : Nat) (k : String) (v : JVal) :
    ∀ (fuel tid : Nat), id ∉ protoChain h fuel tid →
      ∀ key, (h.setF id k v).getProp fuel tid key = h.getProp fuel tid key := by
  intro fuel
  induction fuel with
  | zero => intro tid _ key; rfl
  | succ f ih =>
    intro tid hnm key
    have hne : id ≠ tid := by
      intro he
      exact hnm (by simp [protoChain, he])
    have hobjs := objs_setF_ne h id tid k v hne
    simp only [Heap.getProp]
    rw [hobjs]
    cases ho : h.objs[tid]? with
    | none => rfl
    | some o =>
      cases hf : getField o.fields key with
      | some w => simp [hf]
      | none =>
        cases hp : o.proto with
        | none => simp [hf, hp]
        | some p =>
          simp only [hf, hp]
          apply ih
          intro hmem
          apply hnm
          have hproto : h.protoOf tid = some p := by
            simp [Heap.protoOf, ho, hp]
          simp [protoChain, hproto]
          exact Or.inr hmem

theorem protoChain_closed (h : Heap) (S : List Nat)
    (hS : ∀ i ∈ S, ∀ p, h.protoOf i = some p → p ∈ S) :
    ∀ (fuel i : Nat), i ∈ S → ∀ j ∈ protoChain h fuel i, j ∈ S := by
  intro fuel
  induction fuel with
  | zero => intro i _ j hj; simp [protoChain] at hj
  | succ f ih =>
    intro i hi j hj
    cases hproto : h.protoOf i with
    | none =>
      simp [protoChain, hproto] at hj
      exact hj ▸ hi
    | some p =>
      simp [protoChain, hproto] at hj
      rcases hj with rfl | hj
      · exact hi
      · exact ih p (hS i hi p hproto) j hj

/-- The heap after two `createContext` calls for two different transport
connections on the same application heap. -/
def twoContexts (app req1 res1 req2 res2 : JVal) (u1 u2 : String) : Heap :=
  (createContext
    (createContext appHeap 3 4 5 app req1 res1 u1).2 3 4 5 app req2 res2 u2).2

/-- The same heap, written out: module prototypes 0-2, templates 3-5, and
the two per-request object families 6-9 and 10-13. -/
def twoCtxHeap (app req1 res1 req2 res2 : JVal) (u1 u2 : String) : Heap :=
  ⟨[⟨Option.none, []⟩, ⟨Option.none, []⟩, ⟨Option.none, []⟩,
    ⟨some 0, []⟩, ⟨some 1, []⟩, ⟨some 2, []⟩,
    ⟨some 3, [("request", .ref 7), ("response", .ref 8), ("app", app),
      ("req", req1), ("res", res1), ("originalUrl", .str u1), ("state", .ref 9)]⟩,
    ⟨some 4, [("app", app), ("req", req1), ("res", res1), ("ctx", .ref 6),
      ("response", .ref 8), ("originalUrl", .str u1)]⟩,
    ⟨some 5, [("app", app), ("req", req1), ("res", res1), ("ctx", .ref 6),
      ("request", .ref 7)]⟩,
    ⟨Option.none, []⟩,
    ⟨some 3, [("request", .ref 11), ("response", .ref 12), ("app", app),
      ("req", req2), ("res", res2), ("originalUrl", .str u2), ("state", .ref 13)]⟩,
    ⟨some 4, [("app", app), ("req", req2), ("res", res2), ("ctx", .ref 10),
      ("response", .ref 12), ("originalUrl", .str u2)]⟩,
    ⟨some 5, [("app", app), ("req", req2), ("res", res2), ("ctx", .ref 10),
      ("request", .ref 11)]⟩,
    ⟨Option.none, []⟩]⟩

theorem twoContexts_eq (app req1 res1 req2 res2 : JVal) (u1 u2 : String) :
    twoContexts app req1 res1 req2 res2 u1 u2 =
      twoCtxHeap app req1 res1 req2 res2 u1 u2 := by
  simp [twoContexts, createContext, Heap.alloc, Heap.setF, putField,
    appHeap, twoCtxHeap]

/-- Claim C4: the two contexts created for two distinct transport
connections share no mutable state: writing any own property (`k := v`) of
the first context (6), its request view (7), its response view (8) or its
state bag (9) changes no property lookup — own or delegated through the
shared application templates — rooted at the second context's objects
(10-13), and symmetrically, for every lookup depth. -/
theorem createContext_no_shared_mutable_state (app req1 res1 req2 res2 : JVal)
    (u1 u2 : String) (id tid : Nat) (k key : String) (v : JVal) (fuel : Nat)
    (hid : id ∈ ([6, 7, 8, 9] : List Nat))
    (htid : tid ∈ ([10, 11, 12, 13] : List Nat)) :
    ((twoContexts app req1 res1 req2 res2 u1 u2).setF id k v).getProp fuel tid key =
      (twoContexts app req1 res1 req2 res2 u1 u2).getProp fuel tid key ∧
    ((twoContexts app req1 res1 req2 res2 u1 u2).setF tid k v).getProp fuel id key =
      (twoContexts app req1 res1 req2 res2 u1 u2).getProp fuel id key := by
  rw [twoContexts_eq]
  have hS1 : ∀ i ∈ ([0, 1, 2, 3, 4, 5, 10, 11, 12, 13] : List Nat), ∀ p,
      (twoCtxHeap app req1 res1 req2 res2 u1 u2).protoOf i = some p →
      p ∈ ([0, 1, 2, 3, 4, 5, 10, 11, 12, 13] : List Nat) := by
    intro i hi p hp
    fin_cases hi <;> simp [twoCtxHeap, Heap.protoOf] at hp <;> subst hp <;> decide
  have hS2 : ∀ i ∈ ([0, 1, 2, 3, 4, 5, 6, 7, 8, 9] : List Nat), ∀ p,
      (twoCtxHeap app req1 res1 req2 res2 u1 u2).protoOf i = some p →
      p ∈ ([0, 1, 2, 3, 4, 5, 6, 7, 8, 9] : List Nat) := by
    intro i hi p hp
    fin_cases hi <;> simp [twoCtxHeap, Heap.protoOf] at hp <;> subst hp <;> decide
  refine ⟨getProp_setF_frame _ _ _ _ fuel tid ?_ key,
    getProp_setF_frame _ _ _ _ fuel id ?_ key⟩
  · intro hmem
    have hidS := protoChain_closed _ _ hS1 fuel tid
      (by fin_cases htid <;> decide) id hmem
    fin_cases hid <;> revert hidS <;> decide
  · intro hmem
    have htidS := protoChain_closed _ _ hS2 fuel id
      (by fin_cases hid <;> decide) tid hmem
    fin_cases htid <;> revert htidS <;> decide

/-- Witness for C4: writing own property `foo` on the first context leaves
the second context's delegated `originalUrl` (and every lookup at depth 4)
unchanged, and vice versa. -/
theorem createContext_no_shared_mutable_state_witness :
    (((twoContexts (.raw "app" 0) (.raw "req" 1) (.raw "res" 1) (.raw "req" 2)
        (.raw "res" 2) "/a" "/b").setF 6 "foo" (.str "x")).getProp 4 10 "originalUrl" =
      (twoContexts (.raw "app" 0) (.raw "req" 1) (.raw "res" 1) (.raw "req" 2)
        (.raw "res" 2) "/a" "/b").getProp 4 10 "originalUrl") ∧
    (((twoContexts (.raw "app" 0) (.raw "req" 1) (.raw "res" 1) (.raw "req" 2)
        (.raw "res" 2) "/a" "/b").setF 10 "foo" (.str "x")).getProp 4 6 "originalUrl" =
      (twoContexts (.raw "app" 0) (.raw "req" 1) (.raw "res" 1) (.raw "req" 2)
        (.raw "res" 2) "/a" "/b").getProp 4 6 "originalUrl") :=
  createContext_no_shared_mutable_state (.raw "app" 0) (.raw "req" 1) (.raw "res" 1)
    (.raw "req" 2) (.raw "res" 2) "/a" "/b" 6 10 "foo" "originalUrl" (.str "x") 4
    (by decide) (by decide)

end Koa
